import Mathlib

/-!
Shallow embedding of the LoRAPrune unlearning trainer
(`loraprune/trainer_ul.py`, class `LoRAPruneTrainer`).

The repository slice contains the trainer's inner training loop.  The helper
modules `loraprune.utils` and `loraprune.utils_ul` (sparsity scheduler,
sensitivity tracker, dual-sensitivity combiner, pruning applicator) are not in
the slice; those functions are modelled from the specification and marked as
such in their doc comments.  Everything taken from `trainer_ul.py` mirrors the
source line by line: the pruning decision gate, which sensitivity dictionary
each data stream updates, which stream advances the optimizer and learning-rate
scheduler, and how `state.global_step` is advanced.
-/

/-- A sensitivity dictionary: ParameterGroup name ↦ accumulated sensitivity
value.  Mirrors the Python dicts `forget_sensitivity_dict` /
`retain_sensitivity_dict`. -/
abbrev SensDict := String → ℚ

/-- Modelled from the spec: `utils.init_sensitivity_dict` (module not in the
source slice) — sensitivity dictionaries are created zero-initialized over all
ParameterGroups. -/
def init_sensitivity_dict : SensDict := fun _ => 0

/-- Modelled from the spec: `utils.unfreeze` (module not in the source slice) —
enables gradients on the tracked model weights.  The tracked-weights
requires-grad state is modelled as a `Bool`. -/
def unfreeze (_tracked : Bool) : Bool := true

/-- Modelled from the spec: `utils.schedule_sparsity_ratio` (module not in the
source slice), the RatioScheduler.  Piecewise over normalized progress
`p = step / max_steps`: `p < warmup_frac` returns `init_ratio`;
`warmup_frac ≤ p < 1 - cooldown_frac` interpolates linearly (the spec allows
linear or smoothstep) from `init_ratio` to `final_ratio`;
`p ≥ 1 - cooldown_frac` returns `final_ratio`.  The degenerate case
`warmup_frac + cooldown_frac ≥ 1` returns `final_ratio` as soon as the warmup
segment ends, as the spec's edge-case rule requires. -/
def schedule_sparsity_ratio (step max_steps : ℕ)
    (warmup_frac cooldown_frac init_ratio final_ratio : ℚ) : ℚ :=
  let p : ℚ := (step : ℚ) / (max_steps : ℚ)
  if p < warmup_frac then init_ratio
  else if 1 ≤ warmup_frac + cooldown_frac then final_ratio
  else if p < 1 - cooldown_frac then
    init_ratio + (final_ratio - init_ratio) *
      ((p - warmup_frac) / (1 - cooldown_frac - warmup_frac))
  else final_ratio

/-- The small positive constant of the DualSensitivityCombiner preventing
division by zero when the retain value is zero. -/
def sensitivity_eps : ℚ := 1 / 100000

/-- Modelled from the spec: `utils_ul.compute_dual_sensitivity` (module not in
the source slice), the DualSensitivityCombiner — a normalized ratio
`forget_value / (retain_value + eps)`, monotone increasing in the forget value
and monotone decreasing in the retain value. -/
def compute_dual_sensitivity (forget_value retain_value : ℚ) : ℚ :=
  forget_value / (retain_value + sensitivity_eps)

/-- Insert a group into a list kept sorted by dual score descending. -/
def insertByScoreDesc (dual : String → ℚ) (g : String) : List String → List String
  | [] => [g]
  | h :: t => if dual h ≤ dual g then g :: h :: t else h :: insertByScoreDesc dual g t

/-- Sort group names by dual score descending (rank for pruning selection). -/
def sortByScoreDesc (dual : String → ℚ) : List String → List String
  | [] => []
  | h :: t => insertByScoreDesc dual h (sortByScoreDesc dual t)

/-- Modelled from the spec: `utils_ul.unlearning_prune` (module not in the
source slice), the PruningApplicator selection.  Groups are modelled at
ParameterGroup granularity: rank the currently-unpruned groups whose dual score
exceeds the threshold by score descending, and prune the top ones needed to
bring global sparsity from the current ratio up to `target_ratio`; groups
failing the threshold are skipped even if that leaves the achieved sparsity
short of the target.  Already-pruned groups stay pruned (sticky mask). -/
def unlearning_prune (groups : List String) (dual : String → ℚ)
    (target_ratio threshold : ℚ) (pruned : List String) : List String :=
  let unpruned := groups.filter (fun g => !(pruned.contains g))
  let candidates := unpruned.filter (fun g => decide (threshold < dual g))
  let ranked := sortByScoreDesc dual candidates
  let targetCount : ℕ := (Int.ceil (target_ratio * (groups.length : ℚ))).toNat
  let need : ℕ := targetCount - pruned.length
  pruned ++ ranked.take need

/-- The pruning hyperparameters of `LoRAPruneTrainer.__init__`, plus
`max_steps` (held in `state.max_steps` in the source).  `ratio` is the final
sparsity ratio, as in the source. -/
structure PruneConfig where
  ratio : ℚ
  init_ratio : ℚ
  warmup_iters : ℚ
  cooldown_iters : ℚ
  prune_freq : ℕ
  prune_metric : String
  unlearning_threshold : ℚ
  max_steps : ℕ

/-- The decision gate of `trainer_ul.py` line 409:
`(self.state.global_step) % self.prune_freq == 0 and ratio > self.init_ratio
and ratio < self.ratio`, with `ratio` the scheduled sparsity ratio at the
current global step. -/
def pruneGate (cfg : PruneConfig) (globalStep : ℕ) : Bool :=
  let ratio := schedule_sparsity_ratio globalStep cfg.max_steps
    cfg.warmup_iters cfg.cooldown_iters cfg.init_ratio cfg.ratio
  decide (globalStep % cfg.prune_freq = 0 ∧
    cfg.init_ratio < ratio ∧ ratio < cfg.ratio)

/-- The mutable trainer state touched by a gradient-accumulation-boundary
step: `state.global_step`, the two sensitivity dictionaries, the set of pruned
ParameterGroups (the live model's sticky mask), and counters of how many times
`optimizer.step()` and `lr_scheduler.step()` have run. -/
structure TrainerUlState where
  globalStep : ℕ
  forgetSens : SensDict
  retainSens : SensDict
  pruned : List String
  optimizerSteps : ℕ
  schedulerSteps : ℕ

/-- Trainer state at the start of the loop (`trainer_ul.py` lines 230-232):
both sensitivity dictionaries are freshly zero-initialized, nothing pruned. -/
def initialTrainerState : TrainerUlState :=
  { globalStep := 0
    forgetSens := init_sensitivity_dict
    retainSens := init_sensitivity_dict
    pruned := []
    optimizerSteps := 0
    schedulerSteps := 0 }

/-- The setup before the first training step (`trainer_ul.py` lines 227-228):
`if self.prune_metric == 'grad': utils.unfreeze(model)`.  Returns the
tracked-weights requires-grad state after setup. -/
def setupTrackedGradients (cfg : PruneConfig) (tracked : Bool) : Bool :=
  if cfg.prune_metric = "grad" then unfreeze tracked else tracked

/-- A forget-stream gradient-accumulation-boundary step (`trainer_ul.py` lines
316-338, non-deepspeed path): update the forget sensitivity dictionary, compute
the scheduled ratio (discarded: the pruning block there is commented out, as
are `optimizer.step()` and `lr_scheduler.step()`), zero grads, and increment
`state.global_step`.  `upd` stands for
`utils.update_sensitivity_dict model · prune_metric` applied at the current
model state (module not in the source slice). -/
def forgetBoundaryStep (_cfg : PruneConfig) (upd : SensDict → SensDict)
    (s : TrainerUlState) : TrainerUlState :=
  { s with
    forgetSens := upd s.forgetSens
    globalStep := s.globalStep + 1 }

/-- A retain-stream gradient-accumulation-boundary step (`trainer_ul.py` lines
402-437, non-deepspeed path): update the retain sensitivity dictionary, compute
the scheduled ratio; when the decision gate holds, build the dual-sensitivity
mapping name-by-name from the forget and (just updated) retain dictionaries and
apply `unlearning_prune`; then run `optimizer.step()` and
`lr_scheduler.step()`, zero grads, and increment `state.global_step`.
`groups` is the model's ParameterGroup name list; `upd` is as in
`forgetBoundaryStep`. -/
def retainBoundaryStep (cfg : PruneConfig) (upd : SensDict → SensDict)
    (groups : List String) (s : TrainerUlState) : TrainerUlState :=
  let retainSens := upd s.retainSens
  let ratio := schedule_sparsity_ratio s.globalStep cfg.max_steps
    cfg.warmup_iters cfg.cooldown_iters cfg.init_ratio cfg.ratio
  let pruned :=
    if pruneGate cfg s.globalStep then
      unlearning_prune groups
        (fun name => compute_dual_sensitivity (s.forgetSens name) (retainSens name))
        ratio cfg.unlearning_threshold s.pruned
    else s.pruned
  { globalStep := s.globalStep + 1
    forgetSens := s.forgetSens
    retainSens := retainSens
    pruned := pruned
    optimizerSteps := s.optimizerSteps + 1
    schedulerSteps := s.schedulerSteps + 1 }

/-- A concrete configuration matching the constructor defaults of
`LoRAPruneTrainer` (`ratio=0.5, init_ratio=0, warmup_iters=0.1,
cooldown_iters=0.1, prune_freq=10, prune_metric='lora',
unlearning_threshold=0.1`) with a 100-step run. -/
def cfgDefault : PruneConfig :=
  { ratio := 1/2
    init_ratio := 0
    warmup_iters := 1/10
    cooldown_iters := 1/10
    prune_freq := 10
    prune_metric := "lora"
    unlearning_threshold := 1/10
    max_steps := 100 }

/-- `cfgDefault` with `prune_freq = 5`, so that step 95 (inside the cooldown
segment, where the scheduler already returns the final ratio) is on the pruning
cadence. -/
def cfgFreq5 : PruneConfig := { cfgDefault with prune_freq := 5 }

/-- `cfgDefault` with the `grad` pruning metric. -/
def cfgGrad : PruneConfig := { cfgDefault with prune_metric := "grad" }

/-- A trainer state at global step `g` with zero-initialized sensitivity
dictionaries and nothing pruned. -/
def stateAt (g : ℕ) : TrainerUlState :=
  { initialTrainerState with globalStep := g }

/-- A concrete dual-score assignment: the group `layer0` is strongly
forget-relevant, `layer1` is not. -/
def dualExample : String → ℚ := fun n => if n = "layer0" then 10 else 0

unseal Rat.add Rat.mul Rat.sub Rat.inv in
example : schedule_sparsity_ratio 5 100 (1/10) (1/10) 0 (1/2) = 0 := by decide

unseal Rat.add Rat.mul Rat.sub Rat.inv in
example : schedule_sparsity_ratio 50 100 (1/10) (1/10) 0 (1/2) = 1/4 := by decide

unseal Rat.add Rat.mul Rat.sub Rat.inv in
example : schedule_sparsity_ratio 95 100 (1/10) (1/10) 0 (1/2) = 1/2 := by decide

unseal Rat.add Rat.mul Rat.sub Rat.inv in
example : pruneGate cfgDefault 50 = true := by decide

unseal Rat.add Rat.mul Rat.sub Rat.inv in
example : pruneGate cfgDefault 47 = false := by decide

unseal Rat.add Rat.mul Rat.sub Rat.inv in
example : pruneGate cfgFreq5 95 = false := by decide

unseal Rat.add Rat.mul Rat.sub Rat.inv in
example : unlearning_prune ["layer0", "layer1"] dualExample 1 (1/2) [] = ["layer0"] := by
  decide

/-- C1: Pruning is attempted on a training step only when both the cadence
gate and the floor gate hold: the decision gate implies that the current
global step is divisible by `prune_freq` and that the scheduled target ratio
is strictly greater than `init_ratio`; moreover with `prune_freq = 10` at a
step congruent to 7 the gate is closed and the retain-stream step leaves the
pruned set untouched, regardless of the dual scores. -/
theorem prune_gate_cadence_and_floor (cfg : PruneConfig)
    (upd : SensDict → SensDict) (groups : List String) (s : TrainerUlState) :
    (pruneGate cfg s.globalStep = true →
      s.globalStep % cfg.prune_freq = 0 ∧
      cfg.init_ratio < schedule_sparsity_ratio s.globalStep cfg.max_steps
        cfg.warmup_iters cfg.cooldown_iters cfg.init_ratio cfg.ratio) ∧
    (pruneGate cfg s.globalStep = false →
      (retainBoundaryStep cfg upd groups s).pruned = s.pruned) ∧
    (cfg.prune_freq = 10 → s.globalStep % 10 = 7 →
      pruneGate cfg s.globalStep = false) := by
  refine ⟨?_, ?_, ?_⟩
  · intro h
    simp only [pruneGate, decide_eq_true_eq] at h
    exact ⟨h.1, h.2.1⟩
  · intro h
    simp [retainBoundaryStep, h]
  · intro hf hs
    simp only [pruneGate, hf, decide_eq_false_iff_not]
    rintro ⟨hmod, -⟩
    omega

unseal Rat.add Rat.mul Rat.sub Rat.inv in
theorem prune_gate_cadence_and_floor_witness :
    (50 % cfgDefault.prune_freq = 0 ∧
      cfgDefault.init_ratio < schedule_sparsity_ratio 50 cfgDefault.max_steps
        cfgDefault.warmup_iters cfgDefault.cooldown_iters cfgDefault.init_ratio
        cfgDefault.ratio) ∧
    pruneGate cfgDefault 47 = false ∧
    (retainBoundaryStep cfgDefault (fun d => d) ["layer0"] (stateAt 47)).pruned =
      (stateAt 47).pruned :=
  ⟨(prune_gate_cadence_and_floor cfgDefault (fun d => d) ["layer0"]
      (stateAt 50)).1 (by decide),
   (prune_gate_cadence_and_floor cfgDefault (fun d => d) ["layer0"]
      (stateAt 47)).2.2 rfl (by decide),
   (prune_gate_cadence_and_floor cfgDefault (fun d => d) ["layer0"]
      (stateAt 47)).2.1 (by decide)⟩

unseal Rat.add Rat.mul Rat.sub Rat.inv in
/-- C2 (counterexample): at global step 95 with `prune_freq = 5` the cadence
gate holds and the scheduled ratio (= the final ratio, since step 95 is in the
cooldown segment) is strictly above `init_ratio`, yet the decision gate of
`trainer_ul.py` line 409 is closed and no pruning is attempted, because the
gate also requires `ratio < self.ratio`. -/
theorem prune_gate_below_final_counterexample :
    95 % cfgFreq5.prune_freq = 0 ∧
    cfgFreq5.init_ratio < schedule_sparsity_ratio 95 cfgFreq5.max_steps
      cfgFreq5.warmup_iters cfgFreq5.cooldown_iters cfgFreq5.init_ratio
      cfgFreq5.ratio ∧
    schedule_sparsity_ratio 95 cfgFreq5.max_steps cfgFreq5.warmup_iters
      cfgFreq5.cooldown_iters cfgFreq5.init_ratio cfgFreq5.ratio =
      cfgFreq5.ratio ∧
    pruneGate cfgFreq5 95 = false ∧
    (retainBoundaryStep cfgFreq5 (fun d => d) ["layer0", "layer1"]
      (stateAt 95)).pruned = (stateAt 95).pruned := by
  refine ⟨by decide, by decide, by decide, by decide, by decide⟩

/-- C2 (amended): the condition `ratio < self.ratio` IS part of the decision
gate: on any step where the scheduled target ratio has reached (or passed) the
final ratio, the gate is closed and the retain-stream step performs no
pruning, even if the cadence and floor gates hold. -/
theorem prune_gate_requires_below_final (cfg : PruneConfig)
    (upd : SensDict → SensDict) (groups : List String) (s : TrainerUlState)
    (h : cfg.ratio ≤ schedule_sparsity_ratio s.globalStep cfg.max_steps
      cfg.warmup_iters cfg.cooldown_iters cfg.init_ratio cfg.ratio) :
    pruneGate cfg s.globalStep = false ∧
    (retainBoundaryStep cfg upd groups s).pruned = s.pruned := by
  have hg : pruneGate cfg s.globalStep = false := by
    simp only [pruneGate, decide_eq_false_iff_not]
    rintro ⟨-, -, hlt⟩
    exact absurd h (not_le.mpr hlt)
  exact ⟨hg, by simp [retainBoundaryStep, hg]⟩

unseal Rat.add Rat.mul Rat.sub Rat.inv in
theorem prune_gate_requires_below_final_witness :
    pruneGate cfgFreq5 (stateAt 95).globalStep = false ∧
    (retainBoundaryStep cfgFreq5 (fun d => d) ["layer0", "layer1"]
      (stateAt 95)).pruned = (stateAt 95).pruned :=
  prune_gate_requires_below_final cfgFreq5 (fun d => d) ["layer0", "layer1"]
    (stateAt 95) (by decide)

/-- C3: a forget-stream optimizer-boundary step invokes neither
`optimizer.step()` nor `lr_scheduler.step()`, while a retain-stream
optimizer-boundary step invokes both exactly once. -/
theorem forget_stream_skips_optimizer_and_scheduler (cfg : PruneConfig)
    (upd : SensDict → SensDict) (groups : List String) (s : TrainerUlState) :
    (forgetBoundaryStep cfg upd s).optimizerSteps = s.optimizerSteps ∧
    (forgetBoundaryStep cfg upd s).schedulerSteps = s.schedulerSteps ∧
    (retainBoundaryStep cfg upd groups s).optimizerSteps = s.optimizerSteps + 1 ∧
    (retainBoundaryStep cfg upd groups s).schedulerSteps = s.schedulerSteps + 1 :=
  ⟨rfl, rfl, rfl, rfl⟩

/-- C4: the forget and retain sensitivity dictionaries are two zero-initialized
instances at the start of the run; a forget-stream boundary step updates only
the forget dictionary (the retain one is passed through unchanged) and a
retain-stream boundary step updates only the retain dictionary (the forget one
is passed through unchanged), so neither is ever merged into the other. -/
theorem sensitivity_dicts_independent (cfg : PruneConfig)
    (upd : SensDict → SensDict) (groups : List String) (s : TrainerUlState) :
    initialTrainerState.forgetSens = init_sensitivity_dict ∧
    initialTrainerState.retainSens = init_sensitivity_dict ∧
    (∀ name, init_sensitivity_dict name = 0) ∧
    (forgetBoundaryStep cfg upd s).forgetSens = upd s.forgetSens ∧
    (forgetBoundaryStep cfg upd s).retainSens = s.retainSens ∧
    (retainBoundaryStep cfg upd groups s).retainSens = upd s.retainSens ∧
    (retainBoundaryStep cfg upd groups s).forgetSens = s.forgetSens :=
  ⟨rfl, rfl, fun _ => rfl, rfl, rfl, rfl, rfl⟩

/-- C5: when the decision gate holds on a retain-stream boundary step, the new
pruned set is obtained by applying `unlearning_prune` to the transient
dual-sensitivity mapping built by combining, independently for each
ParameterGroup name, that group's forget sensitivity with its (just updated)
retain sensitivity; the mapping is consumed by the pruning call and is not a
component of the persisted trainer state. -/
theorem dual_sensitivity_transient (cfg : PruneConfig)
    (upd : SensDict → SensDict) (groups : List String) (s : TrainerUlState)
    (h : pruneGate cfg s.globalStep = true) :
    (retainBoundaryStep cfg upd groups s).pruned =
      unlearning_prune groups
        (fun name =>
          compute_dual_sensitivity (s.forgetSens name) (upd s.retainSens name))
        (schedule_sparsity_ratio s.globalStep cfg.max_steps cfg.warmup_iters
          cfg.cooldown_iters cfg.init_ratio cfg.ratio)
        cfg.unlearning_threshold s.pruned := by
  simp [retainBoundaryStep, h]

unseal Rat.add Rat.mul Rat.sub Rat.inv in
theorem dual_sensitivity_transient_witness :
    (retainBoundaryStep cfgDefault (fun d => d) ["layer0"] (stateAt 50)).pruned =
      unlearning_prune ["layer0"]
        (fun name =>
          compute_dual_sensitivity ((stateAt 50).forgetSens name)
            ((fun d => d) (stateAt 50).retainSens name))
        (schedule_sparsity_ratio (stateAt 50).globalStep cfgDefault.max_steps
          cfgDefault.warmup_iters cfgDefault.cooldown_iters
          cfgDefault.init_ratio cfgDefault.ratio)
        cfgDefault.unlearning_threshold (stateAt 50).pruned :=
  dual_sensitivity_transient cfgDefault (fun d => d) ["layer0"] (stateAt 50)
    (by decide)

/-- C6: the tracked model weights are unfrozen before the first training step
exactly when the configured pruning metric is `grad`; for any other metric
(in particular `lora`) the tracked requires-grad state is left as it was. -/
theorem grad_metric_unfreezes (cfg : PruneConfig) (tracked : Bool) :
    (cfg.prune_metric = "grad" → setupTrackedGradients cfg tracked = true) ∧
    (cfg.prune_metric ≠ "grad" → setupTrackedGradients cfg tracked = tracked) := by
  constructor
  · intro h
    simp [setupTrackedGradients, h, unfreeze]
  · intro h
    simp [setupTrackedGradients, h]

theorem grad_metric_unfreezes_witness :
    setupTrackedGradients cfgGrad false = true ∧
    setupTrackedGradients cfgDefault false = false :=
  ⟨(grad_metric_unfreezes cfgGrad false).1 rfl,
   (grad_metric_unfreezes cfgDefault false).2 (by decide)⟩

/-- C9: a forget-stream optimizer-boundary step never prunes: the pruned set
of ParameterGroups (the live model's mask) is exactly the same after the step,
whatever the sensitivity state and configuration. -/
theorem forget_stream_never_prunes (cfg : PruneConfig)
    (upd : SensDict → SensDict) (s : TrainerUlState) :
    (forgetBoundaryStep cfg upd s).pruned = s.pruned :=
  rfl

/-- C10: `state.global_step` increments by exactly one at every completed
gradient-accumulation boundary of the forget stream and of the retain stream
alike, so the schedule and cadence are driven by a counter over both
streams. -/
theorem global_step_increments_both_streams (cfg : PruneConfig)
    (upd : SensDict → SensDict) (groups : List String) (s : TrainerUlState) :
    (forgetBoundaryStep cfg upd s).globalStep = s.globalStep + 1 ∧
    (retainBoundaryStep cfg upd groups s).globalStep = s.globalStep + 1 :=
  ⟨rfl, rfl⟩

theorem mem_insertByScoreDesc (dual : String → ℚ) (g a : String)
    (l : List String) :
    a ∈ insertByScoreDesc dual g l ↔ a ∈ g :: l := by
  induction l with
  | nil => simp [insertByScoreDesc]
  | cons h t ih =>
      simp only [insertByScoreDesc]
      split_ifs
      · simp
      · simp only [List.mem_cons, ih, List.mem_cons]
        tauto

theorem mem_sortByScoreDesc (dual : String → ℚ) (a : String)
    (l : List String) :
    a ∈ sortByScoreDesc dual l ↔ a ∈ l := by
  induction l with
  | nil => simp [sortByScoreDesc]
  | cons h t ih =>
      simp [sortByScoreDesc, mem_insertByScoreDesc, List.mem_cons, ih]

/-- C7: the threshold gate — a ParameterGroup newly pruned by
`unlearning_prune` (one in the output pruned set that was not already pruned)
always has a dual score strictly above the unlearning threshold; groups whose
score is ≤ the threshold are never pruned, even when skipping them leaves the
achieved sparsity below the target ratio. -/
theorem threshold_gate_protects (groups : List String) (dual : String → ℚ)
    (target_ratio threshold : ℚ) (pruned : List String) (g : String)
    (hmem : g ∈ unlearning_prune groups dual target_ratio threshold pruned)
    (hnew : g ∉ pruned) :
    threshold < dual g := by
  simp only [unlearning_prune] at hmem
  rcases List.mem_append.mp hmem with h | h
  · exact absurd h hnew
  · have h1 := List.take_subset _ _ h
    have h2 := (mem_sortByScoreDesc dual g _).mp h1
    have h3 := List.mem_filter.mp h2
    exact of_decide_eq_true h3.2

unseal Rat.add Rat.mul Rat.sub Rat.inv in
theorem threshold_gate_protects_witness : (1:ℚ)/2 < dualExample "layer0" :=
  threshold_gate_protects ["layer0", "layer1"] dualExample 1 (1/2) [] "layer0"
    (by decide) (by decide)

theorem interp_ge_init (w c i f p : ℚ) (hif : i ≤ f) (hwc : ¬ 1 ≤ w + c)
    (hp : w ≤ p) :
    i ≤ i + (f - i) * ((p - w) / (1 - c - w)) := by
  have hd : (0:ℚ) < 1 - c - w := by push_neg at hwc; linarith
  have hn : (0:ℚ) ≤ p - w := by linarith
  have h0 := mul_nonneg (by linarith : (0:ℚ) ≤ f - i) (div_nonneg hn hd.le)
  linarith

theorem interp_le_final (w c i f p : ℚ) (hif : i ≤ f) (hwc : ¬ 1 ≤ w + c)
    (hp : p ≤ 1 - c) :
    i + (f - i) * ((p - w) / (1 - c - w)) ≤ f := by
  have hd : (0:ℚ) < 1 - c - w := by push_neg at hwc; linarith
  have h1 : (p - w) / (1 - c - w) ≤ 1 := by
    rw [div_le_one hd]; linarith
  have h2 := mul_le_mul_of_nonneg_left h1 (by linarith : (0:ℚ) ≤ f - i)
  nlinarith

theorem interp_mono (w c i f p q : ℚ) (hif : i ≤ f) (hwc : ¬ 1 ≤ w + c)
    (hpq : p ≤ q) :
    i + (f - i) * ((p - w) / (1 - c - w)) ≤
      i + (f - i) * ((q - w) / (1 - c - w)) := by
  have hd : (0:ℚ) < 1 - c - w := by push_neg at hwc; linarith
  have h1 : (p - w) / (1 - c - w) ≤ (q - w) / (1 - c - w) :=
    (div_le_div_iff_of_pos_right hd).mpr (by linarith)
  have h2 := mul_le_mul_of_nonneg_left h1 (by linarith : (0:ℚ) ≤ f - i)
  linarith

set_option maxHeartbeats 800000 in
/-- C8: the sparsity schedule is monotone non-decreasing in the step argument
for a valid schedule configuration (positive `max_steps` and
`init_ratio ≤ final_ratio`), the other arguments held fixed. -/
theorem schedule_sparsity_ratio_monotone (step1 step2 max_steps : ℕ)
    (w c i f : ℚ) (hm : 0 < max_steps) (hif : i ≤ f) (h12 : step1 < step2) :
    schedule_sparsity_ratio step1 max_steps w c i f ≤
      schedule_sparsity_ratio step2 max_steps w c i f := by
  have hmq : (0:ℚ) < (max_steps : ℚ) := by exact_mod_cast hm
  have hp : (step1 : ℚ) / (max_steps : ℚ) ≤ (step2 : ℚ) / (max_steps : ℚ) :=
    (div_le_div_iff_of_pos_right hmq).mpr (by exact_mod_cast h12.le)
  simp only [schedule_sparsity_ratio]
  split_ifs with h1 h2 h3 h4 h5 h6 h7 h8 h9 h10 h11
  all_goals try rfl
  all_goals try exact hif
  all_goals try linarith
  all_goals try exact interp_ge_init w c i f _ hif (by assumption) (by linarith)
  all_goals try exact interp_le_final w c i f _ hif (by assumption) (by linarith)
  all_goals exact interp_mono w c i f _ _ hif (by assumption) hp

unseal Rat.add Rat.mul Rat.sub Rat.inv in
theorem schedule_sparsity_ratio_monotone_witness :
    schedule_sparsity_ratio 5 100 (1/10) (1/10) 0 (1/2) ≤
      schedule_sparsity_ratio 50 100 (1/10) (1/10) 0 (1/2) :=
  schedule_sparsity_ratio_monotone 5 50 100 (1/10) (1/10) 0 (1/2)
    (by decide) (by decide) (by decide)
